import Mathlib

/-!
Verification development for the AES-NI garbling core (aesni.c).

The C source is embedded shallowly:
machine integers become Nat with explicit reductions modulo 2^64 or 2^32
where the C types overflow, the two in-memory 64-bit words of a wire
label become a two-field structure, and the 128-bit SSE register
state becomes a sixteen-field byte structure (byte i of the structure is
byte i of the register in little-endian memory order).  The in-place
updates that make_k and garble2 perform through their pointer arguments
are modelled by explicit state passing: each function returns the final
values of every memory cell it can reach.
-/

namespace Aesni

/-- Wire label: two 64-bit words, exactly the C struct label with fields
d0 and d1.  Under the carry convention of label_mul2 and label_mul4,
d0 is the high word and d1 the low word of the 128-bit integer value. -/
structure label where
  d0 : Nat
  d1 : Nat
deriving DecidableEq, Repr

/-- Integer value of a label: d0 is the high 64-bit word, d1 the low one.
This is the unique interpretation under which label_mul2 is multiplication
by two, since label_mul2 carries the top bit of d1 into the bottom bit
of d0. -/
def labelVal (l : label) : Nat := l.d0 * 2 ^ 64 + l.d1

/-- SSE 128-bit register state, as its sixteen bytes in little-endian
memory order: field si is byte i, so the register value is
s0 + s1 * 2^8 + ... + s15 * 2^120. -/
structure Block where
  s0 : Nat
  s1 : Nat
  s2 : Nat
  s3 : Nat
  s4 : Nat
  s5 : Nat
  s6 : Nat
  s7 : Nat
  s8 : Nat
  s9 : Nat
  s10 : Nat
  s11 : Nat
  s12 : Nat
  s13 : Nat
  s14 : Nat
  s15 : Nat
deriving DecidableEq, Repr

/-- Byte i of a natural number, little-endian. -/
def byteAt (x i : Nat) : Nat := (x >>> (8 * i)) % 256

/-- Pack four bytes into a 32-bit word, little-endian. -/
def lane32 (a0 a1 a2 a3 : Nat) : Nat := a0 + 256 * (a1 + 256 * (a2 + 256 * a3))

/-- Low 64-bit word of a block (bytes 0 to 7), as read by the C
expression ((uint64_t *) &pi)[0]. -/
def qword0 (b : Block) : Nat :=
  b.s0 + 256 * (b.s1 + 256 * (b.s2 + 256 * (b.s3 + 256 * (b.s4 + 256 *
    (b.s5 + 256 * (b.s6 + 256 * b.s7))))))

/-- High 64-bit word of a block (bytes 8 to 15), as read by the C
expression ((uint64_t *) &pi)[1]. -/
def qword1 (b : Block) : Nat :=
  b.s8 + 256 * (b.s9 + 256 * (b.s10 + 256 * (b.s11 + 256 * (b.s12 + 256 *
    (b.s13 + 256 * (b.s14 + 256 * b.s15))))))

/-- Conversion used by garble2 to feed a label into the cipher:
the intrinsic call _mm_set_epi64x(d0, d1) places d1 in the low
quadword (bytes 0 to 7) and d0 in the high quadword (bytes 8 to 15). -/
def blockOfSet (l : label) : Block :=
  ⟨byteAt l.d1 0, byteAt l.d1 1, byteAt l.d1 2, byteAt l.d1 3,
   byteAt l.d1 4, byteAt l.d1 5, byteAt l.d1 6, byteAt l.d1 7,
   byteAt l.d0 0, byteAt l.d0 1, byteAt l.d0 2, byteAt l.d0 3,
   byteAt l.d0 4, byteAt l.d0 5, byteAt l.d0 6, byteAt l.d0 7⟩

/-- Integer value of a block, bytes little-endian. -/
def blockVal (b : Block) : Nat := qword0 b + qword1 b * 2 ^ 64

/-- The AES S-box, indexed 0 to 255 (standard FIPS-197 table, needed to
give the aesenc, aesenclast and aeskeygenassist intrinsics their exact
byte-level meaning). -/
def sboxTable : List Nat :=
  [99, 124, 119, 123, 242, 107, 111, 197, 48, 1, 103, 43, 254, 215, 171, 118,
  202, 130, 201, 125, 250, 89, 71, 240, 173, 212, 162, 175, 156, 164, 114, 192,
  183, 253, 147, 38, 54, 63, 247, 204, 52, 165, 229, 241, 113, 216, 49, 21,
  4, 199, 35, 195, 24, 150, 5, 154, 7, 18, 128, 226, 235, 39, 178, 117,
  9, 131, 44, 26, 27, 110, 90, 160, 82, 59, 214, 179, 41, 227, 47, 132,
  83, 209, 0, 237, 32, 252, 177, 91, 106, 203, 190, 57, 74, 76, 88, 207,
  208, 239, 170, 251, 67, 77, 51, 133, 69, 249, 2, 127, 80, 60, 159, 168,
  81, 163, 64, 143, 146, 157, 56, 245, 188, 182, 218, 33, 16, 255, 243, 210,
  205, 12, 19, 236, 95, 151, 68, 23, 196, 167, 126, 61, 100, 93, 25, 115,
  96, 129, 79, 220, 34, 42, 144, 136, 70, 238, 184, 20, 222, 94, 11, 219,
  224, 50, 58, 10, 73, 6, 36, 92, 194, 211, 172, 98, 145, 149, 228, 121,
  231, 200, 55, 109, 141, 213, 78, 169, 108, 86, 244, 234, 101, 122, 174, 8,
  186, 120, 37, 46, 28, 166, 180, 198, 232, 221, 116, 31, 75, 189, 139, 138,
  112, 62, 181, 102, 72, 3, 246, 14, 97, 53, 87, 185, 134, 193, 29, 158,
  225, 248, 152, 17, 105, 217, 142, 148, 155, 30, 135, 233, 206, 85, 40, 223,
  140, 161, 137, 13, 191, 230, 66, 104, 65, 153, 45, 15, 176, 84, 187, 22]

/-- S-box as a function on bytes. -/
def sbox (b : Nat) : Nat := sboxTable.getD b 0

/-- AES state transformation SubBytes: the S-box applied to every byte. -/
def subBytes (b : Block) : Block :=
  ⟨sbox b.s0, sbox b.s1, sbox b.s2, sbox b.s3,
   sbox b.s4, sbox b.s5, sbox b.s6, sbox b.s7,
   sbox b.s8, sbox b.s9, sbox b.s10, sbox b.s11,
   sbox b.s12, sbox b.s13, sbox b.s14, sbox b.s15⟩

/-- AES state transformation ShiftRows.  Byte r + 4c of the state is row
r, column c of the 4 by 4 state matrix; row r is rotated left by r, so
output byte r + 4c is input byte r + 4((c + r) mod 4). -/
def shiftRows (b : Block) : Block :=
  ⟨b.s0, b.s5, b.s10, b.s15,
   b.s4, b.s9, b.s14, b.s3,
   b.s8, b.s13, b.s2, b.s7,
   b.s12, b.s1, b.s6, b.s11⟩

/-- Multiplication by x in GF(2^8) modulo x^8 + x^4 + x^3 + x + 1. -/
def xtime (b : Nat) : Nat := ((b <<< 1) ^^^ (if b &&& 128 = 0 then 0 else 27)) % 256

/-- Multiplication by x + 1 in GF(2^8). -/
def gm3 (b : Nat) : Nat := xtime b ^^^ b

/-- Row 0 of the MixColumns matrix applied to one column. -/
def mixColumn0 (a0 a1 a2 a3 : Nat) : Nat := xtime a0 ^^^ gm3 a1 ^^^ a2 ^^^ a3

/-- Row 1 of the MixColumns matrix applied to one column. -/
def mixColumn1 (a0 a1 a2 a3 : Nat) : Nat := a0 ^^^ xtime a1 ^^^ gm3 a2 ^^^ a3

/-- Row 2 of the MixColumns matrix applied to one column. -/
def mixColumn2 (a0 a1 a2 a3 : Nat) : Nat := a0 ^^^ a1 ^^^ xtime a2 ^^^ gm3 a3

/-- Row 3 of the MixColumns matrix applied to one column. -/
def mixColumn3 (a0 a1 a2 a3 : Nat) : Nat := gm3 a0 ^^^ a1 ^^^ a2 ^^^ xtime a3

/-- AES state transformation MixColumns, applied to each of the four
columns (bytes 4c to 4c + 3). -/
def mixColumns (b : Block) : Block :=
  ⟨mixColumn0 b.s0 b.s1 b.s2 b.s3, mixColumn1 b.s0 b.s1 b.s2 b.s3,
   mixColumn2 b.s0 b.s1 b.s2 b.s3, mixColumn3 b.s0 b.s1 b.s2 b.s3,
   mixColumn0 b.s4 b.s5 b.s6 b.s7, mixColumn1 b.s4 b.s5 b.s6 b.s7,
   mixColumn2 b.s4 b.s5 b.s6 b.s7, mixColumn3 b.s4 b.s5 b.s6 b.s7,
   mixColumn0 b.s8 b.s9 b.s10 b.s11, mixColumn1 b.s8 b.s9 b.s10 b.s11,
   mixColumn2 b.s8 b.s9 b.s10 b.s11, mixColumn3 b.s8 b.s9 b.s10 b.s11,
   mixColumn0 b.s12 b.s13 b.s14 b.s15, mixColumn1 b.s12 b.s13 b.s14 b.s15,
   mixColumn2 b.s12 b.s13 b.s14 b.s15, mixColumn3 b.s12 b.s13 b.s14 b.s15⟩

/-- Bytewise XOR of two blocks (the _mm_xor_si128 intrinsic, and the
AddRoundKey transformation). -/
def xorB (a b : Block) : Block :=
  ⟨a.s0 ^^^ b.s0, a.s1 ^^^ b.s1, a.s2 ^^^ b.s2, a.s3 ^^^ b.s3,
   a.s4 ^^^ b.s4, a.s5 ^^^ b.s5, a.s6 ^^^ b.s6, a.s7 ^^^ b.s7,
   a.s8 ^^^ b.s8, a.s9 ^^^ b.s9, a.s10 ^^^ b.s10, a.s11 ^^^ b.s11,
   a.s12 ^^^ b.s12, a.s13 ^^^ b.s13, a.s14 ^^^ b.s14, a.s15 ^^^ b.s15⟩

/-- The _mm_aesenc_si128 intrinsic: one AES encryption round in the
order documented by Intel (ShiftRows, SubBytes, MixColumns, then XOR
with the round key). -/
def aesenc (s rk : Block) : Block := xorB (mixColumns (subBytes (shiftRows s))) rk

/-- The _mm_aesenclast_si128 intrinsic: the final AES encryption round
(ShiftRows, SubBytes, XOR with the round key, no MixColumns). -/
def aesenclast (s rk : Block) : Block := xorB (subBytes (shiftRows s)) rk

/-- Cipher context: the C struct cipher, an array of fifteen 128-bit
round keys (all source accesses use constant indices, so the array is
embedded as fifteen named fields). -/
structure cipher where
  k0 : Block
  k1 : Block
  k2 : Block
  k3 : Block
  k4 : Block
  k5 : Block
  k6 : Block
  k7 : Block
  k8 : Block
  k9 : Block
  k10 : Block
  k11 : Block
  k12 : Block
  k13 : Block
  k14 : Block
deriving DecidableEq, Repr

/-- The AES round sequence of garble2 and garble (source lines 75 to 90
and 128 to 143): XOR with round key 0, thirteen aesenc rounds with round
keys 1 to 13, one aesenclast round with round key 14. -/
def encryptRounds (cf : cipher) (k : Block) : Block :=
  aesenclast
    (aesenc (aesenc (aesenc (aesenc (aesenc (aesenc (aesenc (aesenc
      (aesenc (aesenc (aesenc (aesenc (aesenc (xorB k cf.k0)
        cf.k1) cf.k2) cf.k3) cf.k4) cf.k5) cf.k6) cf.k7) cf.k8)
        cf.k9) cf.k10) cf.k11) cf.k12) cf.k13)
    cf.k14

/-- The C function label_xor, returning the final value of its first
argument (the only cell it writes). -/
def label_xor (l o : label) : label := ⟨l.d0 ^^^ o.d0, l.d1 ^^^ o.d1⟩

/-- The C function label_mul2, returning the final value of its
argument: d0 is shifted left by one (modulo 2^64, uint64_t overflow)
and receives the top bit of the old d1; d1 is shifted left by one. -/
def label_mul2 (l : label) : label :=
  ⟨((l.d0 <<< 1) % 2 ^ 64) ||| (l.d1 >>> 63), (l.d1 <<< 1) % 2 ^ 64⟩

/-- The C function label_mul4, returning the final value of its
argument: d0 is shifted left by two (modulo 2^64) and receives the top
two bits of the old d1; d1 is shifted left by two. -/
def label_mul4 (l : label) : label :=
  ⟨((l.d0 <<< 2) % 2 ^ 64) ||| (l.d1 >>> 62), (l.d1 <<< 2) % 2 ^ 64⟩

/-- The C function make_k.  It mutates both labels it is given: a
becomes double(a) XOR quadruple(b) XOR the widened tweak, and b becomes
quadruple(b).  The returned pair is (final a, final b); the C return
value is the pointer to a, i.e. the first component.  The local tweak
label is built as {(uint64_t) t, 0}: the 32-bit tweak value lands in
field d0, with d1 = 0. -/
def make_k (a b : label) (t : Nat) : label × label :=
  let tweak : label := ⟨t % 2 ^ 32, 0⟩
  let a1 := label_mul2 a
  let b1 := label_mul4 b
  let a2 := label_xor a1 b1
  let a3 := label_xor a2 tweak
  (a3, b1)

/-- Post-state of a call to garble2: final contents of the cipher
context and of the four label cells reachable through its pointer
arguments. -/
structure G2 where
  cf : cipher
  a : label
  b : label
  c : label
  ret : label
deriving DecidableEq, Repr

/-- The C function garble2, modelled by explicit state passing over all
cells it can reach.  It runs make_k on a and b (mutating both), loads
the combined label into an SSE register with _mm_set_epi64x(d0, d1),
runs the AES round sequence, stores the two quadwords of the result
into ret (note: ret.d0 receives the LOW quadword, while d0 entered as
the HIGH quadword), and XORs ret with the combined label and with c. -/
def garble2 (cf : cipher) (a b c : label) (t : Nat) : G2 :=
  let ab := make_k a b t
  let lk := ab.1
  let k : Block := blockOfSet lk
  let pi : Block := encryptRounds cf k
  let r0 : label := ⟨qword0 pi, qword1 pi⟩
  let r1 := label_xor r0 lk
  let r2 := label_xor r1 c
  ⟨cf, ab.1, ab.2, c, r2⟩

/-- The _mm_aeskeygenassist_si128 intrinsic.  With input words
(X0, X1, X2, X3) and the immediate round constant, the output words are
SubWord(X1), RotWord(SubWord(X1)) XOR rcon, SubWord(X3),
RotWord(SubWord(X3)) XOR rcon, where RotWord rotates the word right by
eight bits and the round constant affects only the lowest byte. -/
def keygenassist (b : Block) (rcon : Nat) : Block :=
  ⟨sbox b.s4, sbox b.s5, sbox b.s6, sbox b.s7,
   sbox b.s5 ^^^ rcon, sbox b.s6, sbox b.s7, sbox b.s4,
   sbox b.s12, sbox b.s13, sbox b.s14, sbox b.s15,
   sbox b.s13 ^^^ rcon, sbox b.s14, sbox b.s15, sbox b.s12⟩

/-- The _mm_loadu_si128 intrinsic on a 16-byte key buffer: byte i of the
buffer becomes byte i of the block. -/
def loadu (key : List Nat) : Block :=
  ⟨key.getD 0 0, key.getD 1 0, key.getD 2 0, key.getD 3 0,
   key.getD 4 0, key.getD 5 0, key.getD 6 0, key.getD 7 0,
   key.getD 8 0, key.getD 9 0, key.getD 10 0, key.getD 11 0,
   key.getD 12 0, key.getD 13 0, key.getD 14 0, key.getD 15 0⟩

/-- The C function make_cipher: round key 0 is the loaded master key and
each following round key is the raw aeskeygenassist of the previous one
with the round constants 0x01 to 0x4D. -/
def make_cipher (key : List Nat) : cipher :=
  let k0 := loadu key
  let k1 := keygenassist k0 1
  let k2 := keygenassist k1 2
  let k3 := keygenassist k2 4
  let k4 := keygenassist k3 8
  let k5 := keygenassist k4 16
  let k6 := keygenassist k5 32
  let k7 := keygenassist k6 64
  let k8 := keygenassist k7 128
  let k9 := keygenassist k8 27
  let k10 := keygenassist k9 54
  let k11 := keygenassist k10 108
  let k12 := keygenassist k11 216
  let k13 := keygenassist k12 171
  let k14 := keygenassist k13 77
  ⟨k0, k1, k2, k3, k4, k5, k6, k7, k8, k9, k10, k11, k12, k13, k14⟩

/-- The _mm_slli_epi32 intrinsic: each of the four 32-bit lanes is
shifted left independently, bits shifted out are discarded. -/
def slli_epi32 (b : Block) (n : Nat) : Block :=
  let w0 := (lane32 b.s0 b.s1 b.s2 b.s3 <<< n) % 2 ^ 32
  let w1 := (lane32 b.s4 b.s5 b.s6 b.s7 <<< n) % 2 ^ 32
  let w2 := (lane32 b.s8 b.s9 b.s10 b.s11 <<< n) % 2 ^ 32
  let w3 := (lane32 b.s12 b.s13 b.s14 b.s15 <<< n) % 2 ^ 32
  ⟨byteAt w0 0, byteAt w0 1, byteAt w0 2, byteAt w0 3,
   byteAt w1 0, byteAt w1 1, byteAt w1 2, byteAt w1 3,
   byteAt w2 0, byteAt w2 1, byteAt w2 2, byteAt w2 3,
   byteAt w3 0, byteAt w3 1, byteAt w3 2, byteAt w3 3⟩

/-- The _mm_set1_epi32 intrinsic: the 32-bit value broadcast to all four
lanes. -/
def set1_epi32 (t : Nat) : Block :=
  let w := t % 2 ^ 32
  ⟨byteAt w 0, byteAt w 1, byteAt w 2, byteAt w 3,
   byteAt w 0, byteAt w 1, byteAt w 2, byteAt w 3,
   byteAt w 0, byteAt w 1, byteAt w 2, byteAt w 3,
   byteAt w 0, byteAt w 1, byteAt w 2, byteAt w 3⟩

/-- The C function garble (the SIMD variant): the AES input is built
from per-lane 32-bit shifts of the labels XORed with the broadcast
tweak, followed by the same AES round sequence as garble2. -/
def garble (cf : cipher) (a b c : Block) (t : Nat) : Block :=
  let k := xorB (xorB (slli_epi32 a 1) (slli_epi32 b 2)) (set1_epi32 t)
  let pi := encryptRounds cf k
  xorB (xorB pi k) c

/-- Initialization of a C char array of size 16 from a string literal:
the characters in order, padded with zero bytes up to length 16 (a
16-character literal exactly fills the array and drops its
terminator). -/
def cArray16 (s : String) : List Nat :=
  (s.toList.map Char.toNat ++ List.replicate 16 0).take 16

/-- The master key of the reference benchmark (main, line 167): the C
initializer key[16] = "0123456789ABCDEF". -/
def benchKey : List Nat := cArray16 "0123456789ABCDEF"

/-- The key-combination formula stated in the specification, with the
tweak widened exactly as the source widens it: the 32-bit tweak value in
the d0 field of the label (the high word under the carry convention of
label_mul2 and label_mul4). -/
def combineTweak (a b : label) (t : Nat) : label :=
  label_xor (label_xor (label_mul2 a) (label_mul4 b)) ⟨t % 2 ^ 32, 0⟩

/-- Tweak widening as the specification words it: the 32-bit tweak
zero-extended into the LOW 64-bit word (the d1 field) of a label.
Written from the specification text, to be compared with the source. -/
def widenLow (t : Nat) : label := ⟨0, t % 2 ^ 32⟩

/-- Key combination as the specification words it: the same formula as
combineTweak but with the tweak widened into the low word.  Written from
the specification text, to be compared with the source. -/
def combineTweakSpecLow (a b : label) (t : Nat) : label :=
  label_xor (label_xor (label_mul2 a) (label_mul4 b)) (widenLow t)

/-- The fixed-key permutation on labels, as garble2 realizes it: the
label enters the cipher through _mm_set_epi64x(d0, d1) (d0 becomes the
high quadword), the AES round sequence runs, and the result is read
back in little-endian memory order (d0 receives the low quadword). -/
def encryptLabel (cf : cipher) (l : label) : label :=
  let pi := encryptRounds cf (blockOfSet l)
  ⟨qword0 pi, qword1 pi⟩

/-- The all-zero label. -/
def zeroL : label := ⟨0, 0⟩

/-- Standard AES encryption round in the order of the specification and
of FIPS-197: SubBytes, ShiftRows, MixColumns, AddRoundKey. -/
def stdRound (s rk : Block) : Block := xorB (mixColumns (shiftRows (subBytes s))) rk

/-- Standard AES final round: SubBytes, ShiftRows, AddRoundKey, no
MixColumns. -/
def stdFinal (s rk : Block) : Block := xorB (shiftRows (subBytes s)) rk

/-- SubWord of FIPS-197 on a little-endian packed 32-bit word. -/
def subWord (w : Nat) : Nat :=
  lane32 (sbox (byteAt w 0)) (sbox (byteAt w 1)) (sbox (byteAt w 2)) (sbox (byteAt w 3))

/-- RotWord of FIPS-197: the byte rotation [a0, a1, a2, a3] to
[a1, a2, a3, a0], i.e. a right rotation by eight bits of the
little-endian packed word. -/
def rotWord (w : Nat) : Nat := lane32 (byteAt w 1) (byteAt w 2) (byteAt w 3) (byteAt w 0)

/-- The Rijndael round constants used by make_cipher, which continue
the standard sequence 0x01 to 0x36 of AES with four further doublings
in GF(2^8). -/
def rconList : List Nat := [1, 2, 4, 8, 16, 32, 64, 128, 27, 54, 108, 216, 171, 77]

/-- Word i of the textbook Rijndael key schedule (FIPS-197 section 5.2)
for a 128-bit key, extended past word 43 with the continued round
constant list so that fifteen round keys exist.  Written from the
specification's reference to a standard AES-128 key-expansion reference
implementation, to be compared with make_cipher. -/
def refWord (key : List Nat) : Nat → Nat
  | 0 => lane32 (key.getD 0 0) (key.getD 1 0) (key.getD 2 0) (key.getD 3 0)
  | 1 => lane32 (key.getD 4 0) (key.getD 5 0) (key.getD 6 0) (key.getD 7 0)
  | 2 => lane32 (key.getD 8 0) (key.getD 9 0) (key.getD 10 0) (key.getD 11 0)
  | 3 => lane32 (key.getD 12 0) (key.getD 13 0) (key.getD 14 0) (key.getD 15 0)
  | (i + 4) =>
      if (i + 4) % 4 = 0 then
        refWord key i ^^^ (subWord (rotWord (refWord key (i + 3))) ^^^ rconList.getD ((i + 4) / 4 - 1) 0)
      else
        refWord key i ^^^ refWord key (i + 3)

/-- Round key r of the textbook Rijndael key schedule: words 4r to
4r + 3 packed into a block in little-endian byte order. -/
def refRoundKey (key : List Nat) (r : Nat) : Block :=
  let w0 := refWord key (4 * r)
  let w1 := refWord key (4 * r + 1)
  let w2 := refWord key (4 * r + 2)
  let w3 := refWord key (4 * r + 3)
  ⟨byteAt w0 0, byteAt w0 1, byteAt w0 2, byteAt w0 3,
   byteAt w1 0, byteAt w1 1, byteAt w1 2, byteAt w1 3,
   byteAt w2 0, byteAt w2 1, byteAt w2 2, byteAt w2 3,
   byteAt w3 0, byteAt w3 1, byteAt w3 2, byteAt w3 3⟩

/-- Helper: aesenc performs the standard AES round, because SubBytes
(a bytewise map) commutes with ShiftRows (a byte permutation). -/
theorem aesenc_eq_stdRound (s rk : Block) : aesenc s rk = stdRound s rk := rfl

/-- Helper: aesenclast performs the standard AES final round, by the
same commutation. -/
theorem aesenclast_eq_stdFinal (s rk : Block) : aesenclast s rk = stdFinal s rk := rfl

/-- C1: for every cipher context, labels a, b, c and tweak t, garble2
returns xor(xor(pi, k), c), where k = combineTweak(a, b, t) is the
combined AES input block and pi = encryptLabel ctx k is the fixed-key
permutation of k under the context's round-key schedule. -/
theorem garble2_defining_equation (cf : cipher) (a b c : label) (t : Nat) :
    (garble2 cf a b c t).ret =
      label_xor (label_xor (encryptLabel cf (combineTweak a b t)) (combineTweak a b t)) c := rfl

/-- C2 counterexample: with a = b = 0 and t = 1, the key-combination
step of the source does not put the tweak in the low word: its result
differs from the specification's low-word formula, and its 128-bit
integer value under the carry convention of label_mul2 is 2^64, not 1. -/
theorem make_k_tweak_not_low_word :
    (make_k zeroL zeroL 1).1 ≠ combineTweakSpecLow zeroL zeroL 1 ∧
      labelVal (make_k zeroL zeroL 1).1 = 2 ^ 64 := by
  constructor
  · decide
  · decide

/-- C2 amended: the key-combination step computes
xor(xor(double(a), quadruple(b)), widen(t)) where widen zero-extends the
32-bit tweak into the HIGH 64-bit word (field d0) of the label; hence
with a = b = 0 the combined block has integer value t * 2^64 under the
carry convention of double and quadruple. -/
theorem make_k_eq_combineTweak (a b : label) (t : Nat) :
    (make_k a b t).1 = combineTweak a b t ∧
      labelVal (make_k zeroL zeroL t).1 = t % 2 ^ 32 * 2 ^ 64 := by
  constructor
  · rfl
  · show (0 ^^^ 0 ^^^ t % 2 ^ 32) * 2 ^ 64 + (0 ^^^ 0 ^^^ 0) = t % 2 ^ 32 * 2 ^ 64
    simp

/-- C6 counterexample: garble2 does have an observable side effect: at
the benchmark cipher context with labels (1,0), (2,0), (3,0) and tweak
7, the call overwrites the label cell a (it ends holding (13,0), the
combined AES input block, instead of its entry value (1,0)). -/
theorem garble2_mutates_input_a :
    (garble2 (make_cipher benchKey) ⟨1, 0⟩ ⟨2, 0⟩ ⟨3, 0⟩ 7).a ≠ ⟨1, 0⟩ := by decide

/-- C6 amended: a call to garble2 leaves the cipher context and the
label cell c unchanged and writes only its designated output cell ret
and, in addition, the two input cells a and b, which end holding the
two labels that make_k leaves behind (the combined AES input block and
the quadrupled b). -/
theorem garble2_frame (cf : cipher) (a b c : label) (t : Nat) :
    (garble2 cf a b c t).c = c ∧ (garble2 cf a b c t).cf = cf ∧
      (garble2 cf a b c t).a = (make_k a b t).1 ∧
      (garble2 cf a b c t).b = (make_k a b t).2 :=
  ⟨rfl, rfl, rfl, rfl⟩

/-- C10: after a call to garble2 with pairwise non-aliased arguments,
the cell a holds xor(xor(double(a0), quadruple(b0)), widen(t)) (the
combined AES input block) and the cell b holds quadruple(b0), where a0
and b0 are the entry values; the cell c and the cipher context are
unchanged. -/
theorem garble2_post_state (cf : cipher) (a b c : label) (t : Nat) :
    (garble2 cf a b c t).a =
        label_xor (label_xor (label_mul2 a) (label_mul4 b)) ⟨t % 2 ^ 32, 0⟩ ∧
      (garble2 cf a b c t).b = label_mul4 b ∧
      (garble2 cf a b c t).c = c ∧
      (garble2 cf a b c t).cf = cf :=
  ⟨rfl, rfl, rfl, rfl⟩

/-- C8 counterexample: the last byte of the benchmark master key is not
a null pad byte. -/
theorem benchKey_last_byte_not_null : benchKey.getD 15 0 ≠ 0 := by decide

/-- C8 amended: the 16-byte master key of the reference benchmark is the
full ASCII string 0123456789ABCDEF, sixteen characters with no implicit
null padding; its last byte is 0x46, the character F. -/
theorem benchKey_bytes :
    benchKey = [48, 49, 50, 51, 52, 53, 54, 55, 56, 57, 65, 66, 67, 68, 69, 70] ∧
      benchKey.getD 15 0 = 70 ∧ benchKey.length = 16 := by
  refine ⟨by decide, by decide, by decide⟩

/-- C3: the fixed-key permutation of garble2 is computed by XORing the
input block with round key 0, then applying exactly thirteen standard
AES encrypt-round transformations (SubBytes, ShiftRows, MixColumns,
AddRoundKey) with round keys 1 through 13 in order, then one final round
(SubBytes, ShiftRows, AddRoundKey, no MixColumns) with round key 14, for
every context and input block. -/
theorem encryptRounds_structure (cf : cipher) (x : Block) :
    encryptRounds cf x =
      stdFinal
        (List.foldl stdRound (xorB x cf.k0)
          [cf.k1, cf.k2, cf.k3, cf.k4, cf.k5, cf.k6, cf.k7,
           cf.k8, cf.k9, cf.k10, cf.k11, cf.k12, cf.k13])
        cf.k14 := by
  simp only [encryptRounds, List.foldl, aesenc_eq_stdRound, aesenclast_eq_stdFinal]

/-- C4 counterexample: for the benchmark master key, round key 1
produced by make_cipher differs from round key 1 of the textbook
Rijndael key schedule (make_cipher stores the raw key-generation-assist
value without the XOR chain of the standard expansion). -/
theorem make_cipher_differs_from_textbook :
    (make_cipher benchKey).k1 ≠ refRoundKey benchKey 1 := by decide

/-- C4 amended: for the benchmark master key, round key 0 of
make_cipher equals round key 0 of the textbook schedule (both are the
raw master key), but already round key 1 differs: make_cipher takes
each subsequent round key to be the raw aeskeygenassist of the previous
one with the round constants 0x01 to 0x4D, not the textbook expansion. -/
theorem make_cipher_schedule :
    (make_cipher benchKey).k0 = refRoundKey benchKey 0 ∧
      (make_cipher benchKey).k1 = keygenassist ((make_cipher benchKey).k0) 1 ∧
      (make_cipher benchKey).k1 ≠ refRoundKey benchKey 1 := by
  refine ⟨by decide, rfl, by decide⟩

set_option maxRecDepth 40000 in
/-- C7: the two gate-function variants disagree: there is a cipher
context and a quadruple of inputs (here the benchmark key, all-zero
labels and tweak 1) on which garble2 and garble return different
128-bit outputs, whichever of the two label-to-register conversions
used in the source is applied to compare them. -/
theorem garble_variants_disagree :
    ∃ (key : List Nat) (a b c : label) (t : Nat),
      (garble2 (make_cipher key) a b c t).ret ≠
          ⟨qword1 (garble (make_cipher key) (blockOfSet a) (blockOfSet b) (blockOfSet c) t),
           qword0 (garble (make_cipher key) (blockOfSet a) (blockOfSet b) (blockOfSet c) t)⟩ ∧
        (garble2 (make_cipher key) a b c t).ret ≠
          ⟨qword0 (garble (make_cipher key) (blockOfSet a) (blockOfSet b) (blockOfSet c) t),
           qword1 (garble (make_cipher key) (blockOfSet a) (blockOfSet b) (blockOfSet c) t)⟩ :=
  ⟨benchKey, zeroL, zeroL, zeroL, 1, by decide, by decide⟩

/-- Helper: bitwise or of a multiple of 2^i with a value below 2^i is
addition (the or-ed bits are disjoint). -/
theorem or_of_mod (i a r : Nat) (ha : a % 2 ^ i = 0) (hr : r < 2 ^ i) :
    a ||| r = a + r := by
  obtain ⟨m, hm⟩ : 2 ^ i ∣ a := Nat.dvd_of_mod_eq_zero ha
  subst hm
  exact (Nat.mul_add_lt_is_or hr m).symm

/-- C5: for every 128-bit value, label_mul2 is multiplication by two
modulo 2^128 and label_mul4 is multiplication by four modulo 2^128,
under the integer interpretation in which d0 is the high word and d1
the low word, with the carry crossing the word boundary. -/
theorem label_mul_correct (l : label) (_h0 : l.d0 < 2 ^ 64) (h1 : l.d1 < 2 ^ 64) :
    labelVal (label_mul2 l) = 2 * labelVal l % 2 ^ 128 ∧
      labelVal (label_mul4 l) = 4 * labelVal l % 2 ^ 128 := by
  constructor
  · simp only [labelVal, label_mul2]
    rw [Nat.shiftLeft_eq, Nat.shiftLeft_eq, Nat.shiftRight_eq_div_pow]
    rw [or_of_mod 1 _ _ (by omega) (by omega)]
    omega
  · simp only [labelVal, label_mul4]
    rw [Nat.shiftLeft_eq, Nat.shiftLeft_eq, Nat.shiftRight_eq_div_pow]
    rw [or_of_mod 2 _ _ (by omega) (by omega)]
    omega

/-- C5 witness: the theorem applied at the label with both words equal
to 2^63, an input that exercises both the cross-word carry and the
reduction modulo 2^128. -/
theorem label_mul_correct_witness :
    (⟨2 ^ 63, 2 ^ 63⟩ : label).d0 < 2 ^ 64 ∧ (⟨2 ^ 63, 2 ^ 63⟩ : label).d1 < 2 ^ 64 ∧
      (labelVal (label_mul2 ⟨2 ^ 63, 2 ^ 63⟩) = 2 * labelVal ⟨2 ^ 63, 2 ^ 63⟩ % 2 ^ 128 ∧
        labelVal (label_mul4 ⟨2 ^ 63, 2 ^ 63⟩) = 4 * labelVal ⟨2 ^ 63, 2 ^ 63⟩ % 2 ^ 128) :=
  ⟨by decide, by decide, label_mul_correct ⟨2 ^ 63, 2 ^ 63⟩ (by decide) (by decide)⟩

end Aesni

